import Mathlib

/-!
Verification of the personalized learning assistant (agents.py, app.py,
database.py, utils.py) against its specification.  The Python source is
shallowly embedded: strings are `String` (sequences of code points, as in
Python), every function is total, and each fallible external call (LLM
chain invocation, similarity search, sqlite statement) is modelled as an
oracle of type `Except String _` supplied through a `Ports` structure.
-/

/-- Python `s[:n]` on a string: the first `n` code points. -/
def takeStr (n : Nat) (s : String) : String :=
  String.mk (s.data.take n)

/-- Python `str.lower()` (restricted to ASCII case mapping, which covers
every string the repository compares). -/
def lowerChars (l : List Char) : List Char :=
  l.map Char.toLower

/-- Helper of `splitWS`: accumulate the current word (reversed). -/
def splitWSAux : List Char → List Char → List (List Char)
  | [], acc => if acc.isEmpty then [] else [acc.reverse]
  | c :: rest, acc =>
    if c.isWhitespace then
      if acc.isEmpty then splitWSAux rest []
      else acc.reverse :: splitWSAux rest []
    else splitWSAux rest (c :: acc)

/-- Python `str.split()` with no argument: split on runs of whitespace,
discarding empty tokens. -/
def splitWS (l : List Char) : List (List Char) :=
  splitWSAux l []

/-- Python `needle in hay` on strings: contiguous substring test. -/
def isSubstrChars (needle : List Char) : List Char → Bool
  | [] => needle.isEmpty
  | c :: rest => needle.isPrefixOf (c :: rest) || isSubstrChars needle rest

/-- The answer-correctness heuristic of `show_learn_page` (app.py
lines 426-433): lowercase both strings, then accept when the user answer
is a substring of the reference, the reference is a substring of the user
answer, or some whitespace token of the reference longer than 3
characters occurs in the user answer. -/
def isCorrectAnswer (userAnswer referenceAnswer : String) : Bool :=
  let u := lowerChars userAnswer.data
  let r := lowerChars referenceAnswer.data
  isSubstrChars u r || isSubstrChars r u ||
    (splitWS r).any (fun w => decide (w.length > 3) && isSubstrChars w u)

/-- The spec wording of the CorrectnessJudge verdict (spec section 4.3),
stated as a proposition for comparison with `isCorrectAnswer`. -/
def correctnessSpec (userAnswer referenceAnswer : String) : Prop :=
  lowerChars userAnswer.data <:+: lowerChars referenceAnswer.data ∨
  lowerChars referenceAnswer.data <:+: lowerChars userAnswer.data ∨
  ∃ w ∈ splitWS (lowerChars referenceAnswer.data),
    w.length > 3 ∧ w <:+: lowerChars userAnswer.data

/-- Outcome of pressing the per-question check button in the UI. -/
inductive CheckOutcome
  | warnEmpty
  | graded (verdict : Bool)
deriving DecidableEq

/-- The check-answer handler of `show_learn_page` (app.py lines 422-433):
an empty input produces a warning and no grading, otherwise the
correctness heuristic is applied. -/
def checkAnswerAction (userAnswer referenceAnswer : String) : CheckOutcome :=
  if userAnswer = "" then .warnEmpty
  else .graded (isCorrectAnswer userAnswer referenceAnswer)

lemma isSubstrChars_iff (needle hay : List Char) :
    isSubstrChars needle hay = true ↔ needle <:+: hay := by
  induction hay with
  | nil => simp [isSubstrChars, List.infix_nil, List.isEmpty_iff]
  | cons c rest ih =>
    simp [isSubstrChars, Bool.or_eq_true, ih, List.infix_cons_iff,
      List.isPrefixOf_iff_prefix]

/-- C4: the answer-correctness check returns true exactly when one of the
three spec clauses holds after lowercasing (user in reference, reference
in user, or a reference token longer than 3 characters occurring in the
user answer), and it accepts "paris" against "The capital of France is
Paris". -/
theorem c4_correctness_heuristic :
    (∀ u r, isCorrectAnswer u r = true ↔ correctnessSpec u r) ∧
    isCorrectAnswer "paris" "The capital of France is Paris" = true := by
  constructor
  · intro u r
    simp [isCorrectAnswer, correctnessSpec, Bool.or_eq_true, isSubstrChars_iff,
      List.any_eq_true, Bool.and_eq_true, decide_eq_true_iff]
    tauto
  · decide

/-- C10: the empty user answer is judged correct against every reference
answer, because the empty string is a substring of every string; only the
UI guard (which warns instead of grading) avoids this verdict. -/
theorem c10_empty_answer_graded_correct (referenceAnswer : String) :
    isCorrectAnswer "" referenceAnswer = true ∧
    checkAnswerAction "" referenceAnswer = .warnEmpty := by
  constructor
  · have h : isSubstrChars (lowerChars "".data) (lowerChars referenceAnswer.data) = true := by
      rw [isSubstrChars_iff]
      exact List.nil_infix
    simp only [isCorrectAnswer, Bool.or_eq_true]
    exact Or.inl (Or.inl h)
  · simp [checkAnswerAction]

/-- After at least one digit was seen: skip further digits, then require
the next character to be `c` (models the regexes `^Q\d+:`, `^\d+\.`,
`^Question \d+:` after their literal part). -/
def afterDigits : List Char → Char → Bool
  | [], _ => false
  | x :: xs, c => if x.isDigit then afterDigits xs c else x == c

/-- One or more digits followed by the character `c`. -/
def digitsThenChar : List Char → Char → Bool
  | [], _ => false
  | x :: xs, c => x.isDigit && afterDigits xs c

/-- Python `str.strip()`: drop whitespace from both ends. -/
def stripChars (l : List Char) : List Char :=
  ((l.dropWhile Char.isWhitespace).reverse.dropWhile Char.isWhitespace).reverse

/-- Fuel-driven helper of `removeAll`; the fuel starts at the length of
the scanned list, which each step decreases by at least one character. -/
def removeAllAux (pat : List Char) : Nat → List Char → List Char
  | 0, l => l
  | _ + 1, [] => []
  | fuel + 1, c :: rest =>
    if !pat.isEmpty && pat.isPrefixOf (c :: rest) then
      removeAllAux pat fuel ((c :: rest).drop pat.length)
    else c :: removeAllAux pat fuel rest

/-- Python `s.replace(pat, "")` for a non-empty `pat`: remove every
non-overlapping occurrence, scanning left to right. -/
def removeAll (pat l : List Char) : List Char :=
  removeAllAux pat l.length l

/-- Python `s.split('\n')`: split at every newline, keeping empty pieces
(so the empty string yields one empty line). -/
def splitNl : List Char → List (List Char)
  | [] => [[]]
  | c :: rest =>
    if c == '\n' then [] :: splitNl rest
    else
      match splitNl rest with
      | [] => [[c]]
      | h :: t => (c :: h) :: t

/-- Python `' '.join(lines)`. -/
def joinSpaces (ls : List (List Char)) : List Char :=
  List.intercalate [' '] ls

/-- A structured question produced by `parse_questions` (agents.py
lines 283-358). -/
structure QuestionRec where
  question : String
  options : List String
  answer : String
  explanation : String
deriving DecidableEq

/-- The mutable state of the line scan in `parse_questions`: the questions
flushed so far, the accumulating question, the explanation-collection flag
and the buffered explanation lines. -/
structure ParseState where
  questions : List QuestionRec
  current : Option QuestionRec
  collecting : Bool
  explanationLines : List (List Char)
deriving DecidableEq

/-- Matches the question-start test of the scanner: `^Q\d+:` or
`^Question \d+:` or `^\d+\.`. -/
def isQuestionStart (line : List Char) : Bool :=
  (match line with
   | 'Q' :: rest => digitsThenChar rest ':'
   | _ => false) ||
  (("Question ".data).isPrefixOf line && digitsThenChar (line.drop 9) ':') ||
  digitsThenChar line '.'

/-- Matches the option test `^[A-D]\)`. -/
def isOptionLine (line : List Char) : Bool :=
  match line with
  | a :: b :: _ => decide ('A' ≤ a) && decide (a ≤ 'D') && b == ')'
  | _ => false

/-- Flush the accumulating question (attaching the buffered explanation
joined by single spaces when the buffer is non-empty) into the output;
mirrors both the flush at a question-start line and the final flush. -/
def flushCurrent (st : ParseState) : ParseState :=
  match st.current with
  | some q =>
    let q := if st.explanationLines.isEmpty then q
             else { q with explanation := String.mk (joinSpaces st.explanationLines) }
    { st with questions := st.questions ++ [q], explanationLines := [],
              collecting := false, current := none }
  | none => st

/-- Append an option line to the accumulating question. -/
def addOption (st : ParseState) (line : List Char) : ParseState :=
  match st.current with
  | some q => { st with current := some { q with options := q.options ++ [String.mk line] } }
  | none => st

/-- Set the answer of the accumulating question from an `Answer:` line. -/
def setAnswer (st : ParseState) (line : List Char) : ParseState :=
  match st.current with
  | some q =>
    let q := { q with answer := String.mk (stripChars (removeAll ("Answer:".data) line)) }
    { st with current := some q }
  | none => st

/-- One iteration of the scanner loop of `parse_questions` on an
already-stripped line, mirroring the if/elif chain of the source. -/
def processLine (st : ParseState) (line : List Char) : ParseState :=
  if line.isEmpty && st.current.isNone then st
  else if isQuestionStart line then
    let st := flushCurrent st
    { st with current := some { question := String.mk line, options := [],
                                answer := "", explanation := "" } }
  else if !line.isEmpty && st.current.isSome && isOptionLine line then
    addOption st line
  else if ("Answer:".data).isPrefixOf line then
    setAnswer st line
  else if ("Explanation:".data).isPrefixOf line then
    { st with collecting := true,
              explanationLines := [stripChars (removeAll ("Explanation:".data) line)] }
  else if st.collecting && st.current.isSome then
    if !line.isEmpty then { st with explanationLines := st.explanationLines ++ [line] }
    else st
  else st

/-- The synthetic reflection question substituted when no structured
question was recognized. -/
def syntheticQuestion : QuestionRec :=
  { question := "What did you learn about this topic?",
    options := [],
    answer := "Reflect on the key concepts explained above.",
    explanation := "This question helps reinforce your learning through reflection." }

/-- The parser `parse_questions` of agents.py: split into lines, scan
each stripped line through `processLine`, flush the trailing question and
fall back to the single synthetic question when nothing was recognized. -/
def parse_questions (questions_text : String) : List QuestionRec :=
  let lines := splitNl questions_text.data
  let st := lines.foldl (fun st l => processLine st (stripChars l))
    { questions := [], current := none, collecting := false, explanationLines := [] }
  let qs := (flushCurrent st).questions
  if qs.isEmpty then [syntheticQuestion] else qs

/-- C5: parsing the two-question sample text yields exactly two records,
the first with answer "It is Y" and explanation "because Z", the second
with answer "It is V" and empty explanation. -/
theorem c5_parse_two_question_sample :
    parse_questions "Q1: What is X?\nAnswer: It is Y\nExplanation: because Z\nQ2: What is W?\nAnswer: It is V" =
      [{ question := "Q1: What is X?", options := [], answer := "It is Y",
         explanation := "because Z" },
       { question := "Q2: What is W?", options := [], answer := "It is V",
         explanation := "" }] := by
  decide

lemma processLine_of_no_qstart (st : ParseState) (line : List Char)
    (hq : isQuestionStart line = false) (hc : st.current = none) :
    (processLine st line).current = none ∧
    (processLine st line).questions = st.questions := by
  obtain ⟨qs, cur, col, buf⟩ := st
  simp only at hc
  subst hc
  unfold processLine
  repeat' split
  all_goals simp_all [setAnswer, addOption, flushCurrent]

lemma fold_of_no_qstart (ls : List (List Char)) (st : ParseState)
    (h : ∀ l ∈ ls, isQuestionStart (stripChars l) = false)
    (hc : st.current = none) :
    (ls.foldl (fun s l => processLine s (stripChars l)) st).current = none ∧
    (ls.foldl (fun s l => processLine s (stripChars l)) st).questions = st.questions := by
  induction ls generalizing st with
  | nil => exact ⟨hc, rfl⟩
  | cons l ls ih =>
    simp only [List.foldl_cons]
    have h1 := processLine_of_no_qstart st (stripChars l) (h l (by simp)) hc
    have h2 := ih (processLine st (stripChars l)) (fun x hx => h x (by simp [hx])) h1.1
    exact ⟨h2.1, h2.2.trans h1.2⟩

/-- C6: the parser is total, and whenever no stripped input line matches a
question-start pattern the result is exactly the one synthetic reflection
record with empty options and the fixed placeholder answer and
explanation. -/
theorem c6_parse_fallback_single (questions_text : String)
    (h : ∀ l ∈ splitNl questions_text.data, isQuestionStart (stripChars l) = false) :
    parse_questions questions_text = [syntheticQuestion] := by
  unfold parse_questions
  have hf := fold_of_no_qstart (splitNl questions_text.data)
    { questions := [], current := none, collecting := false, explanationLines := [] } h rfl
  rcases hf with ⟨h1, h2⟩
  simp only [flushCurrent, h1, h2, List.isEmpty_nil, if_true]

/-- Witness for C6: the empty input has no question-start line, and the
parser returns exactly the synthetic record on it. -/
theorem c6_parse_fallback_single_witness : parse_questions "" = [syntheticQuestion] :=
  c6_parse_fallback_single "" (by decide)

/-- A row of the `learning_progress` table (database.py lines 42-53). -/
structure ProgRow where
  id : Nat
  user_id : Nat
  topic : String
  proficiency_score : Nat
  questions_attempted : Nat
  questions_correct : Nat
  last_practiced : Option String
  created_at : String
deriving DecidableEq

/-- A row of the `quiz_results` table (database.py lines 75-85). -/
structure QuizRow where
  user_id : Nat
  topic : String
  question : String
  user_answer : String
  correct_answer : String
  is_correct : Bool
  created_at : String
deriving DecidableEq

/-- The two tables touched by quiz grading. -/
structure Store where
  learning_progress : List ProgRow
  quiz_results : List QuizRow
deriving DecidableEq

/-- Sqlite AUTOINCREMENT id for a fresh `learning_progress` row. -/
def freshId (table : List ProgRow) : Nat :=
  (table.map (fun r => r.id)).foldr max 0 + 1

/-- Fuel-driven floor of the base-2 logarithm; the fuel starts at the
argument itself, which bounds the recursion depth. -/
def floorLog2Aux : Nat → Nat → Nat
  | 0, _ => 0
  | fuel + 1, n => if n ≤ 1 then 0 else floorLog2Aux fuel (n / 2) + 1

/-- Floor of the base-2 logarithm of a positive natural number. -/
def floorLog2 (n : Nat) : Nat := floorLog2Aux n n

/-- The binade of the positive rational `n / d`: the unique integer `e`
with `2^e ≤ n / d < 2^(e+1)` (`n, d ≥ 1`).  The candidate exponent from
the two floor logarithms is off by at most one, settled by an exact
integer comparison. -/
def qexp (n d : Nat) : Int :=
  let k : Int := (floorLog2 n : Int) - (floorLog2 d : Int)
  let ge : Bool :=
    if k ≥ 0 then decide (d * 2 ^ k.toNat ≤ n) else decide (d ≤ n * 2 ^ (-k).toNat)
  if ge then k else k - 1

/-- Round the non-negative rational `n / d` (`d ≥ 1`) to a 53-bit
significand, to nearest with ties to even - the IEEE-754 binary64
rounding of a real result, with unbounded exponent range (no overflow,
infinity or subnormal handling, which only diverges from binary64 for
values beyond roughly `2^±1022`).  Returns `(m, e)` denoting the exact
value `m * 2^(e-52)` with `2^52 ≤ m ≤ 2^53`, or `(0, 0)` for zero. -/
def roundF64 (n d : Nat) : Nat × Int :=
  if n = 0 then (0, 0)
  else
    let e := qexp n d
    let scaled : Nat × Nat :=
      if e ≤ 52 then (n * 2 ^ (52 - e).toNat, d) else (n, d * 2 ^ (e - 52).toNat)
    let m0 := scaled.1 / scaled.2
    let r := scaled.1 % scaled.2
    let m :=
      if 2 * r < scaled.2 then m0
      else if 2 * r > scaled.2 then m0 + 1
      else if m0 % 2 = 0 then m0 else m0 + 1
    (m, e)

/-- Python `int((correct / attempted) * 100)` for `attempted ≥ 1`, as the
interpreter evaluates it: the division is the correctly rounded binary64
quotient, the product with the exactly representable 100 is the correctly
rounded binary64 product, and `int` truncates toward zero (floor, as the
value is non-negative).  Both roundings use `roundF64`; the intermediate
`m1 * 2^(e1-52)` times 100 is fed to the second rounding as an exact
integer fraction. -/
def proficiencyPercent (correct attempted : Nat) : Nat :=
  if correct = 0 then 0
  else
    let d1 := roundF64 correct attempted
    let frac : Nat × Nat :=
      if d1.2 ≥ 52 then (d1.1 * 100 * 2 ^ (d1.2 - 52).toNat, 1)
      else (d1.1 * 100, 2 ^ (52 - d1.2).toNat)
    let d2 := roundF64 frac.1 frac.2
    if d2.2 ≥ 52 then d2.1 * 2 ^ (d2.2 - 52).toNat else d2.1 / 2 ^ (52 - d2.2).toNat

/-- The binary64 model reproduces the float-specific truncations of the
source: 29 correct of 100 attempted stores 28 (the product
`0.29 * 100` rounds to just below 29), although exact truncation of
`29 * 100 / 100` would give 29; 2 of 3 stores 66; 1 of 2 stores 50. -/
lemma proficiencyPercent_binary64_check :
    proficiencyPercent 29 100 = 28 ∧ (29 * 100) / 100 = 29 ∧
    proficiencyPercent 2 3 = 66 ∧ proficiencyPercent 1 2 = 50 := by
  decide

/-- `DatabaseManager.update_progress` (database.py lines 293-340): find the
first progress row of this user and topic; when present, add the new
counts onto the existing counters and recompute the proficiency, else
insert a fresh row.  The proficiency
`int((new_correct / new_attempted) * 100)` is the binary64 computation
modelled by `proficiencyPercent`. -/
def update_progress (table : List ProgRow) (user_id : Nat) (topic : String)
    (correct total_questions : Nat) (now : String) : List ProgRow :=
  match table.find? (fun row => row.user_id == user_id && row.topic == topic) with
  | some r =>
    let newAttempted := r.questions_attempted + total_questions
    let newCorrect := r.questions_correct + correct
    let newProficiency :=
      if newAttempted > 0 then proficiencyPercent newCorrect newAttempted else 0
    table.map (fun row =>
      if row.id == r.id then
        { row with questions_attempted := newAttempted, questions_correct := newCorrect,
                   proficiency_score := newProficiency, last_practiced := some now }
      else row)
  | none =>
    let proficiency :=
      if total_questions > 0 then proficiencyPercent correct total_questions else 0
    table ++ [{ id := freshId table, user_id := user_id, topic := topic,
                proficiency_score := proficiency, questions_attempted := total_questions,
                questions_correct := correct, last_practiced := some now, created_at := now }]

/-- `DatabaseManager.save_quiz_result` (database.py lines 430-459): insert
the graded answer (fields truncated to 500 characters) into
`quiz_results`, then update the per-topic progress with one attempted
question and one or zero correct ones. -/
def save_quiz_result (store : Store) (user_id : Nat)
    (topic question user_answer correct_answer : String) (is_correct : Bool)
    (now : String) : Store :=
  { quiz_results := store.quiz_results ++
      [{ user_id := user_id, topic := topic, question := takeStr 500 question,
         user_answer := takeStr 500 user_answer, correct_answer := takeStr 500 correct_answer,
         is_correct := is_correct, created_at := now }],
    learning_progress := update_progress store.learning_progress user_id topic
      (if is_correct then 1 else 0) 1 now }

/-- The proficiency invariant the code actually maintains: the score is
the truncation of the binary64 product `(correct / attempted) * 100`, or
0 with no attempts. -/
def profInvariant (r : ProgRow) : Prop :=
  r.proficiency_score =
    if r.questions_attempted > 0 then
      proficiencyPercent r.questions_correct r.questions_attempted
    else 0

instance (r : ProgRow) : Decidable (profInvariant r) := by
  unfold profInvariant
  infer_instance

/-- Rounding to the nearest integer (half away from zero), the operation
the claim asserts for the proficiency score. -/
def roundNat (num den : Nat) : Nat := (2 * num + den) / (2 * den)

lemma update_progress_inv (table : List ProgRow) (uid : Nat) (topic : String)
    (correct total : Nat) (now : String)
    (hinv : ∀ r ∈ table, profInvariant r) :
    ∀ r ∈ update_progress table uid topic correct total now, profInvariant r := by
  intro r hr
  unfold update_progress at hr
  cases hf : table.find? (fun row => row.user_id == uid && row.topic == topic) with
  | none =>
    rw [hf] at hr
    simp only [List.mem_append, List.mem_singleton] at hr
    rcases hr with h | h
    · exact hinv r h
    · subst h; rfl
  | some r0 =>
    rw [hf] at hr
    simp only [List.mem_map] at hr
    obtain ⟨row, hrow, hfr⟩ := hr
    by_cases hid : row.id == r0.id
    · rw [if_pos hid] at hfr
      subst hfr; rfl
    · rw [if_neg hid] at hfr
      subst hfr; exact hinv row hrow

lemma find?_map_pred_preserved {A : Type} (p : A → Bool) (f : A → A)
    (l : List A) (hpres : ∀ x, p (f x) = p x) :
    (l.map f).find? p = (l.find? p).map f := by
  rw [List.find?_map]
  have h : (p ∘ f) = p := funext hpres
  rw [h]

lemma update_progress_find? (table : List ProgRow) (uid : Nat) (topic : String)
    (correct total : Nat) (now : String) (r : ProgRow)
    (hf : table.find? (fun row => row.user_id == uid && row.topic == topic) = some r) :
    (update_progress table uid topic correct total now).find?
        (fun row => row.user_id == uid && row.topic == topic) =
      some { r with questions_attempted := r.questions_attempted + total,
                    questions_correct := r.questions_correct + correct,
                    proficiency_score :=
                      if r.questions_attempted + total > 0 then
                        proficiencyPercent (r.questions_correct + correct)
                          (r.questions_attempted + total)
                      else 0,
                    last_practiced := some now } := by
  unfold update_progress
  rw [hf]
  simp only
  rw [find?_map_pred_preserved]
  · rw [hf]
    simp
  · intro row
    by_cases h : row.id == r.id
    · simp [h]
    · simp [h]

/-- C3 (amended): every grading update through `save_quiz_result` adds one
to the attempted counter and the correctness bit to the correct counter of
the matched progress row (never replacing them wholesale), and preserves
the invariant that the proficiency equals the truncation of the binary64
product `(correct / attempted) * 100` - not its rounding, and not the
exact truncation either - or 0 when nothing was attempted. -/
theorem c3_grading_preserves_truncation_invariant (store : Store) (user_id : Nat)
    (topic question user_answer correct_answer : String) (is_correct : Bool) (now : String)
    (hinv : ∀ r ∈ store.learning_progress, profInvariant r) :
    (∀ r ∈ (save_quiz_result store user_id topic question user_answer correct_answer
        is_correct now).learning_progress, profInvariant r) ∧
    (∀ r, store.learning_progress.find?
        (fun row => row.user_id == user_id && row.topic == topic) = some r →
      (save_quiz_result store user_id topic question user_answer correct_answer
          is_correct now).learning_progress.find?
          (fun row => row.user_id == user_id && row.topic == topic) =
        some { r with questions_attempted := r.questions_attempted + 1,
                      questions_correct := r.questions_correct + (if is_correct then 1 else 0),
                      proficiency_score :=
                        proficiencyPercent
                          (r.questions_correct + (if is_correct then 1 else 0))
                          (r.questions_attempted + 1),
                      last_practiced := some now }) := by
  constructor
  · intro r hr
    exact update_progress_inv store.learning_progress user_id topic
      (if is_correct then 1 else 0) 1 now hinv r hr
  · intro r hf
    have h := update_progress_find? store.learning_progress user_id topic
      (if is_correct then 1 else 0) 1 now r hf
    simpa [save_quiz_result, Nat.succ_pos] using h

/-- A consistent starting row: one correct out of two attempted, score 50. -/
def prow0 : ProgRow :=
  { id := 1, user_id := 1, topic := "python", proficiency_score := 50,
    questions_attempted := 2, questions_correct := 1,
    last_practiced := some "t0", created_at := "t0" }

/-- Store holding exactly `prow0`. -/
def progressStore0 : Store :=
  { learning_progress := [prow0], quiz_results := [] }

/-- C3 counterexample: grading one more correct answer onto (1 correct of
2 attempted) makes the code store a proficiency of 66 - the truncation of
the binary64 value of (2/3)*100 - while the claimed invariant
round(100*2/3) demands 67. -/
theorem c3_rounding_counterexample :
    ((save_quiz_result progressStore0 1 "python" "q" "ua" "ca" true "t1").learning_progress.map
        (fun r => r.proficiency_score)) = [66] ∧
    roundNat (2 * 100) 3 = 67 ∧ (66 : Nat) ≠ 67 := by
  decide

/-- Witness for C3: concretely, grading a correct answer against the store
holding (1 correct of 2 attempted, score 50) yields the incremented row
with truncated score 66. -/
theorem c3_grading_witness :
    (save_quiz_result progressStore0 1 "python" "q" "ua" "ca" true "t1").learning_progress.find?
        (fun row => row.user_id == 1 && row.topic == "python") =
      some { id := 1, user_id := 1, topic := "python", proficiency_score := 66,
             questions_attempted := 3, questions_correct := 2,
             last_practiced := some "t1", created_at := "t0" } :=
  (c3_grading_preserves_truncation_invariant progressStore0 1 "python" "q" "ua" "ca" true "t1"
    (by decide)).2 prow0 (by decide)

/-- Python `', '.join(items)`. -/
def joinComma (items : List String) : String :=
  String.intercalate ", " items

/-- The user profile dictionary as the orchestrator reads it: the two
style fields may be missing (`.get` with defaults), interests default to
the empty list. -/
structure UserProfile where
  learning_style : Option String
  knowledge_level : Option String
  interests : List String
deriving DecidableEq

/-- A progress record as returned by `get_user_progress` (database.py
lines 342-373). -/
structure ProgressItem where
  topic : String
  subtopic : Option String
  proficiency_score : Nat
  questions_attempted : Nat
  questions_correct : Nat
  last_practiced : Option String
deriving DecidableEq

/-- One result of the material similarity search: page content plus the
optional `topic` metadata key. -/
structure SearchResult where
  metadata_topic : Option String
  page_content : String
deriving DecidableEq

/-- Variables handed to the concept-explainer prompt template. -/
structure ExplainVars where
  query : String
  learning_style : String
  knowledge_level : String
  interests : String
deriving DecidableEq

/-- Variables handed to the question-generator prompt template. -/
structure QuestionVars where
  topic : String
  explanation : String
  proficiency_level : Nat
  num_questions : Nat
deriving DecidableEq

/-- Variables handed to the path-recommender prompt template. -/
structure PathVars where
  current_topic : String
  knowledge_level : String
  learning_style : String
  interests : String
  progress_summary : String
  available_resources : String
deriving DecidableEq

/-- The stage-4 session summary (agents.py lines 435-449). -/
structure SessionSummary where
  query : String
  explanation_length : Nat
  questions_generated : Nat
  has_learning_path : Bool
  timestamp : String
  profile_learning_style : Option String
  profile_knowledge_level : Option String
deriving DecidableEq

/-- The `session_summary` field of the returned dictionary: the stage-4
summary on the normal path, or the `(error, query)` dictionary built by
the orchestrator-level exception handler. -/
inductive SummaryData
  | full (summary : SessionSummary)
  | degraded (errorMessage : String) (query : String)
deriving DecidableEq

/-- The dictionary `orchestrate_learning_session` returns to its caller. -/
structure SessionResult where
  explanation : String
  questions : String
  learning_path : String
  session_summary : SummaryData
deriving DecidableEq

/-- The external behaviors the pipeline depends on: the three LLM chain
invocations, the sqlite progress query, the vector-store similarity
search (plus the truthiness of the module-level `vector_store`), the
sqlite session insert, and the clock.  Each fallible call is an oracle
that either returns a value or raises, which `Except` models. -/
structure Ports where
  genExplanation : ExplainVars → Except String String
  genQuestions : QuestionVars → Except String String
  genPath : PathVars → Except String String
  dbProgressQuery : Nat → Except String (List ProgressItem)
  hasVectorStore : Bool
  similaritySearch : String → Nat → Except String (List SearchResult)
  dbInsertSession : Nat → String → String → SessionSummary → Except String Unit
  now : String

/-- The fallback explanation text of `explain_concept` (agents.py
lines 189-204), with the query and the first 100 characters of the error
interpolated. -/
def fallbackExplanation (query err : String) : String :=
  "## Explanation for: " ++ query ++
  "\n\nSorry, I encountered an error while generating the explanation. \n\n**Key Points:**\n- Please try again with a more specific query\n- Make sure your API keys are properly configured\n- You can also try rephrasing your question\n\n**Example Query Format:**\n- \"Explain neural networks for beginners\"\n- \"What is Python programming?\"\n- \"How do quantum computers work?\"\n\nError details: " ++
  takeStr 100 err ++ "...\n"

/-- The fallback questions text of `generate_questions` (agents.py
lines 220-238). -/
def fallbackQuestions (topic err : String) : String :=
  "## Practice Questions for: " ++ topic ++
  "\n\nQ1: What are the key concepts you learned about " ++ topic ++
  "?\n\nAnswer: [Your answer here]\nExplanation: This question helps you recall the main points from the explanation.\n\nQ2: Can you provide a real-world example of " ++ topic ++
  "?\n\nAnswer: [Your example here]\nExplanation: Applying concepts to real-world scenarios improves understanding.\n\nQ3: What would you like to learn next about " ++ topic ++
  "?\n\nAnswer: [Your thoughts here]\nExplanation: Identifying next steps helps guide your learning journey.\n\nNote: Error occurred while generating questions: " ++
  takeStr 100 err ++ "\n"

/-- The fallback learning-path text of `recommend_learning_path`
(agents.py lines 256-281). -/
def fallbackPath (current_topic err : String) : String :=
  "## Learning Path: " ++ current_topic ++
  "\n\n### Current Level Assessment\nStarting your learning journey on this topic.\n\n### Recommended Learning Approach:\n1. **Start with Basics**: Understand fundamental concepts\n2. **Practice Regularly**: Apply what you learn through exercises\n3. **Build Projects**: Create small projects to reinforce learning\n4. **Review and Reflect**: Regularly review what you\x27ve learned\n\n### Week-by-Week Plan:\n- Week 1: Learn basic concepts and terminology\n- Week 2: Practice with simple examples\n- Week 3: Build a small project or complete exercises\n- Week 4: Review and explore advanced topics\n\n### Success Metrics:\n- Complete basic understanding of concepts\n- Successfully complete practice exercises\n- Build at least one small project\n\n### Estimated Completion: 4 weeks\n\nNote: Error occurred while generating detailed path: " ++
  takeStr 100 err ++ "\n"

/-- `LearningAssistantAgents.explain_concept` (agents.py lines 176-204):
invoke the explainer chain with the profile defaults, catching every
failure into the fixed fallback text. -/
def explain_concept (ports : Ports) (query : String) (profile : UserProfile) : String :=
  match ports.genExplanation
      { query := query,
        learning_style := profile.learning_style.getD "visual",
        knowledge_level := profile.knowledge_level.getD "beginner",
        interests := joinComma profile.interests } with
  | .ok explanation => explanation
  | .error e => fallbackExplanation query e

/-- The variables `generate_questions` hands to the question template:
the topic, the explanation truncated to 1000 characters, the proficiency
and the question count. -/
def questionVarsOf (topic explanation : String)
    (proficiency_level num_questions : Nat) : QuestionVars :=
  { topic := topic, explanation := takeStr 1000 explanation,
    proficiency_level := proficiency_level, num_questions := num_questions }

/-- `LearningAssistantAgents.generate_questions` (agents.py
lines 206-238). -/
def generate_questions (ports : Ports) (topic explanation : String)
    (proficiency_level : Nat) (num_questions : Nat) : String :=
  match ports.genQuestions (questionVarsOf topic explanation proficiency_level num_questions) with
  | .ok questions => questions
  | .error e => fallbackQuestions topic e

/-- The variables `recommend_learning_path` hands to the path template;
the resources list is capped to its first 5 entries and joined by
newlines. -/
def pathVarsOf (current_topic : String) (profile : UserProfile)
    (progress_summary : String) (available_resources : List String) : PathVars :=
  { current_topic := current_topic,
    knowledge_level := profile.knowledge_level.getD "beginner",
    learning_style := profile.learning_style.getD "visual",
    interests := joinComma profile.interests,
    progress_summary := progress_summary,
    available_resources := String.intercalate "\n" (available_resources.take 5) }

/-- `LearningAssistantAgents.recommend_learning_path` (agents.py
lines 240-281). -/
def recommend_learning_path (ports : Ports) (current_topic : String) (profile : UserProfile)
    (progress_summary : String) (available_resources : List String) : String :=
  match ports.genPath (pathVarsOf current_topic profile progress_summary available_resources) with
  | .ok path => path
  | .error e => fallbackPath current_topic e

/-- `DatabaseManager.get_user_progress` (database.py lines 342-373): any
database failure is caught and becomes the empty list. -/
def get_user_progress (ports : Ports) (user_id : Nat) : List ProgressItem :=
  match ports.dbProgressQuery user_id with
  | .ok items => items
  | .error _ => []

/-- `VectorStoreManager.search_materials` (utils.py lines 272-302): any
search failure is caught and becomes the empty result list. -/
def search_materials (ports : Ports) (query : String) (k : Nat) : List SearchResult :=
  match ports.similaritySearch query k with
  | .ok results => results
  | .error _ => []

/-- `DatabaseManager.save_learning_session` (database.py lines 237-259):
the insert either succeeds (True) or its exception is caught and False is
returned - it never raises to the caller. -/
def save_learning_session (ports : Ports) (user_id : Nat) (topic subtopic : String)
    (session_data : SessionSummary) : Bool :=
  match ports.dbInsertSession user_id topic subtopic session_data with
  | .ok _ => true
  | .error _ => false

/-- The LangGraph state dictionary threaded through the four nodes. -/
structure LearningState where
  query : String
  user_id : Nat
  user_profile : UserProfile
  explanation : String
  questions : String
  learning_path : String
deriving DecidableEq

/-- Node 1 of the pipeline. -/
def generate_explanation_node (ports : Ports) (s : LearningState) : LearningState :=
  { s with explanation := explain_concept ports s.query s.user_profile }

/-- The proficiency scan of node 2 (agents.py lines 388-394): default 50,
replaced by the score of the first progress item whose lowercased topic is
a substring of the lowercased query. -/
def topicProficiency : List ProgressItem → String → Nat
  | [], _ => 50
  | item :: rest, query =>
    if isSubstrChars (lowerChars item.topic.data) (lowerChars query.data) then
      item.proficiency_score
    else topicProficiency rest query

/-- Node 2 of the pipeline (agents.py lines 383-402). -/
def generate_practice_questions_node (ports : Ports) (s : LearningState) : LearningState :=
  let questions := generate_questions ports s.query s.explanation
    (topicProficiency (get_user_progress ports s.user_id) s.query) 3
  { s with questions := questions }

/-- One resource line: `"<topic>: <first 100 chars of content>..."`, the
topic defaulting to "Resource" when the metadata key is missing. -/
def resourceEntry (r : SearchResult) : String :=
  r.metadata_topic.getD "Resource" ++ ": " ++ takeStr 100 r.page_content ++ "..."

/-- The resources list of node 3 (agents.py lines 409-423): formatted
search results when the vector store exists, replaced by the three generic
placeholders when the list ends up empty.  The source also holds a
handler substituting ["Sample resources for learning"] if
`search_materials` itself raised, but `search_materials` catches every
failure internally and returns a list, so that branch is unreachable and
has no counterpart here. -/
def stageResources (ports : Ports) (query : String) : List String :=
  let resources :=
    if ports.hasVectorStore then (search_materials ports query 3).map resourceEntry
    else []
  if resources.isEmpty then
    ["Basic learning materials", "Online tutorials", "Practice exercises"]
  else resources

/-- Node 3 of the pipeline (agents.py lines 404-433). -/
def generate_learning_path_node (ports : Ports) (s : LearningState) : LearningState :=
  let learning_path := recommend_learning_path ports s.query s.user_profile
    "Starting new learning topic" (stageResources ports s.query)
  { s with learning_path := learning_path }

/-- Node 4 (agents.py lines 435-449): the summary records the length of
the explanation, the count of the character Q in the questions text, the
truthiness of the learning path, the clock and the two profile fields. -/
def create_session_summary (ports : Ports) (s : LearningState) : SessionSummary :=
  { query := s.query,
    explanation_length := s.explanation.data.length,
    questions_generated := s.questions.data.count 'Q',
    has_learning_path := s.learning_path != "",
    timestamp := ports.now,
    profile_learning_style := s.user_profile.learning_style,
    profile_knowledge_level := s.user_profile.knowledge_level }

/-- The compiled LangGraph pipeline `app.invoke` runs: the four nodes in
their fixed order starting from the empty-fields initial state. -/
def runPipeline (ports : Ports) (query : String) (user_id : Nat)
    (profile : UserProfile) : LearningState × SessionSummary :=
  let s0 : LearningState :=
    { query := query, user_id := user_id, user_profile := profile,
      explanation := "", questions := "", learning_path := "" }
  let s1 := generate_explanation_node ports s0
  let s2 := generate_practice_questions_node ports s1
  let s3 := generate_learning_path_node ports s2
  (s3, create_session_summary ports s3)

/-- `orchestrate_learning_session` (agents.py lines 360-501): run the
pipeline, save the summary (the Boolean outcome of the save is discarded,
as in the source), and return the state dictionary.  The source wraps
this in try/except returning `degradedResult`, but every node and the
save wrapper catch their own failures, so under the modelled port
behaviors no exception reaches that handler. -/
def orchestrate_learning_session (ports : Ports) (query : String) (user_id : Nat)
    (profile : UserProfile) : SessionResult :=
  let result := runPipeline ports query user_id profile
  let _saved := save_learning_session ports user_id query "General" result.2
  { explanation := result.1.explanation,
    questions := result.1.questions,
    learning_path := result.1.learning_path,
    session_summary := .full result.2 }

/-- The dictionary the orchestrator-level exception handler (agents.py
lines 493-501) would return: a re-generated explanation, two literal
error strings and the `(error, query)` summary. -/
def degradedResult (ports : Ports) (query : String) (profile : UserProfile)
    (errorMessage : String) : SessionResult :=
  { explanation := explain_concept ports query profile,
    questions := "Error generating questions. Please try again.",
    learning_path := "Error generating learning path.",
    session_summary := .degraded errorMessage query }

/-- C7: the stage-4 summary records the character length of the
explanation, the literal count of the character Q in the questions text
(a character count, not a parsed question count), and a learning-path
flag that is true exactly when the learning-path string is non-empty. -/
theorem c7_summary_fields (ports : Ports) (s : LearningState) :
    (create_session_summary ports s).explanation_length = s.explanation.data.length ∧
    (create_session_summary ports s).questions_generated =
      (s.questions.data.filter (fun c => c == 'Q')).length ∧
    ((create_session_summary ports s).has_learning_path = true ↔ s.learning_path ≠ "") := by
  refine ⟨rfl, ?_, ?_⟩
  · simp [create_session_summary, List.count, List.countP_eq_length_filter]
  · simp [create_session_summary, bne_iff_ne]

lemma topicProficiency_eq_find? (progress : List ProgressItem) (query : String) :
    topicProficiency progress query =
      ((progress.find? (fun item =>
          isSubstrChars (lowerChars item.topic.data) (lowerChars query.data))).elim 50
        (fun item => item.proficiency_score)) := by
  induction progress with
  | nil => rfl
  | cons item rest ih =>
    by_cases h : isSubstrChars (lowerChars item.topic.data) (lowerChars query.data) = true
    · simp [topicProficiency, List.find?, h]
    · simp only [Bool.not_eq_true] at h
      simp [topicProficiency, List.find?, h, ih]

/-- C8: stage 2 hands the question template the query as topic, the
explanation truncated to its first 1000 characters, numQuestions 3, and
the proficiency score of the first progress record whose lowercased topic
is a substring of the lowercased query, defaulting to 50 when no record
matches. -/
theorem c8_stage2_template_variables (ports : Ports) (s : LearningState) :
    (generate_practice_questions_node ports s).questions =
      (match ports.genQuestions
          { topic := s.query,
            explanation := takeStr 1000 s.explanation,
            proficiency_level :=
              ((get_user_progress ports s.user_id).find? (fun item =>
                  isSubstrChars (lowerChars item.topic.data) (lowerChars s.query.data))).elim 50
                (fun item => item.proficiency_score),
            num_questions := 3 } with
       | .ok questions => questions
       | .error e => fallbackQuestions s.query e) := by
  simp [generate_practice_questions_node, generate_questions, questionVarsOf,
    topicProficiency_eq_find?]

/-- C9: with a live vector store, a failing or empty similarity search
makes stage 3 substitute exactly the three generic placeholder resources;
a successful non-empty search yields one entry per result in the
`<topic>: <first 100 chars>...` format; and the path template always
receives the resources list capped to its first 5 entries. -/
theorem c9_stage3_resources (ports : Ports) (query : String)
    (hvs : ports.hasVectorStore = true) :
    (∀ e, ports.similaritySearch query 3 = .error e →
        stageResources ports query =
          ["Basic learning materials", "Online tutorials", "Practice exercises"]) ∧
    (ports.similaritySearch query 3 = .ok [] →
        stageResources ports query =
          ["Basic learning materials", "Online tutorials", "Practice exercises"]) ∧
    (∀ results, results ≠ [] → ports.similaritySearch query 3 = .ok results →
        stageResources ports query = results.map resourceEntry) ∧
    (∀ (profile : UserProfile) (progress_summary : String)
        (available_resources : List String),
        (pathVarsOf query profile progress_summary available_resources).available_resources =
          String.intercalate "\n" (available_resources.take 5) ∧
        (available_resources.take 5).length ≤ 5) := by
  refine ⟨?_, ?_, ?_, ?_⟩
  · intro e he
    simp [stageResources, search_materials, hvs, he]
  · intro he
    simp [stageResources, search_materials, hvs, he]
  · intro results hne he
    simp [stageResources, search_materials, hvs, he, List.isEmpty_iff, hne]
  · intro profile progress_summary available_resources
    refine ⟨rfl, ?_⟩
    simp [List.length_take]

/-- Ports whose vector store is alive but whose underlying similarity
search raises. -/
def searchFailPorts : Ports :=
  { genExplanation := fun _ => .ok "E",
    genQuestions := fun _ => .ok "Q",
    genPath := fun _ => .ok "P",
    dbProgressQuery := fun _ => .ok [],
    hasVectorStore := true,
    similaritySearch := fun _ _ => .error "search down",
    dbInsertSession := fun _ _ _ _ => .ok (),
    now := "t" }

/-- Witness for C9: with the failing search the three placeholders are
substituted. -/
theorem c9_stage3_resources_witness :
    stageResources searchFailPorts "python" =
      ["Basic learning materials", "Online tutorials", "Practice exercises"] :=
  (c9_stage3_resources searchFailPorts "python" rfl).1 "search down" rfl

lemma ne_empty_of_length_pos (s : String) (h : 0 < s.length) : s ≠ "" := by
  intro he
  rw [he] at h
  exact absurd h (by decide)

lemma fallbackExplanation_ne_empty (query err : String) :
    fallbackExplanation query err ≠ "" := by
  apply ne_empty_of_length_pos
  have h : 0 < ("## Explanation for: " : String).length := by decide
  simp only [fallbackExplanation, String.length_append]
  omega

lemma fallbackQuestions_ne_empty (topic err : String) :
    fallbackQuestions topic err ≠ "" := by
  apply ne_empty_of_length_pos
  have h : 0 < ("## Practice Questions for: " : String).length := by decide
  simp only [fallbackQuestions, String.length_append]
  omega

lemma fallbackPath_ne_empty (current_topic err : String) :
    fallbackPath current_topic err ≠ "" := by
  apply ne_empty_of_length_pos
  have h : 0 < ("## Learning Path: " : String).length := by decide
  simp only [fallbackPath, String.length_append]
  omega

/-- C1 (amended): the orchestrator is a total function of the port
behaviors, and whenever each successful text generation returns non-empty
text - in particular whenever every port fails, since all three fallback
payloads are non-empty - the returned explanation, questions and
learning-path fields are all non-empty. -/
theorem c1_fields_nonempty (ports : Ports) (query : String) (user_id : Nat)
    (profile : UserProfile)
    (hE : ∀ v s, ports.genExplanation v = .ok s → s ≠ "")
    (hQ : ∀ v s, ports.genQuestions v = .ok s → s ≠ "")
    (hP : ∀ v s, ports.genPath v = .ok s → s ≠ "") :
    (orchestrate_learning_session ports query user_id profile).explanation ≠ "" ∧
    (orchestrate_learning_session ports query user_id profile).questions ≠ "" ∧
    (orchestrate_learning_session ports query user_id profile).learning_path ≠ "" := by
  refine ⟨?_, ?_, ?_⟩
  · show explain_concept ports query profile ≠ ""
    unfold explain_concept
    cases hx : ports.genExplanation
        { query := query,
          learning_style := profile.learning_style.getD "visual",
          knowledge_level := profile.knowledge_level.getD "beginner",
          interests := joinComma profile.interests } with
    | ok s => exact hE _ s hx
    | error e => exact fallbackExplanation_ne_empty query e
  · show generate_questions ports query (explain_concept ports query profile)
        (topicProficiency (get_user_progress ports user_id) query) 3 ≠ ""
    unfold generate_questions
    cases hx : ports.genQuestions (questionVarsOf query (explain_concept ports query profile)
        (topicProficiency (get_user_progress ports user_id) query) 3) with
    | ok s => exact hQ _ s hx
    | error e => exact fallbackQuestions_ne_empty query e
  · show recommend_learning_path ports query profile "Starting new learning topic"
        (stageResources ports query) ≠ ""
    unfold recommend_learning_path
    cases hx : ports.genPath (pathVarsOf query profile "Starting new learning topic"
        (stageResources ports query)) with
    | ok s => exact hP _ s hx
    | error e => exact fallbackPath_ne_empty query e

/-- A profile with both style fields present and no interests. -/
def defaultProfile : UserProfile :=
  { learning_style := some "visual", knowledge_level := some "beginner", interests := [] }

/-- Ports where the explanation chain succeeds with the empty string and
everything else succeeds normally. -/
def emptyTextPorts : Ports :=
  { genExplanation := fun _ => .ok "",
    genQuestions := fun _ => .ok "questions text",
    genPath := fun _ => .ok "path text",
    dbProgressQuery := fun _ => .ok [],
    hasVectorStore := false,
    similaritySearch := fun _ _ => .ok [],
    dbInsertSession := fun _ _ _ _ => .ok (),
    now := "t" }

/-- C1 counterexample: when the explanation chain succeeds but returns
the empty string - a legal behavior of the text-generation port - the
orchestrator returns a result whose explanation field is empty, so the
fields are not non-empty for every port behavior. -/
theorem c1_empty_generation_counterexample :
    (orchestrate_learning_session emptyTextPorts "topology" 1 defaultProfile).explanation = "" := by
  rfl

/-- Ports on which every external call fails. -/
def allFailPorts : Ports :=
  { genExplanation := fun _ => .error "llm down",
    genQuestions := fun _ => .error "llm down",
    genPath := fun _ => .error "llm down",
    dbProgressQuery := fun _ => .error "db down",
    hasVectorStore := true,
    similaritySearch := fun _ _ => .error "index down",
    dbInsertSession := fun _ _ _ _ => .error "db down",
    now := "t" }

/-- Witness for C1: with every port failing, all three returned fields
are non-empty (they are the fallback payloads). -/
theorem c1_fields_nonempty_witness :
    (orchestrate_learning_session allFailPorts "recursion" 2 defaultProfile).explanation ≠ "" ∧
    (orchestrate_learning_session allFailPorts "recursion" 2 defaultProfile).questions ≠ "" ∧
    (orchestrate_learning_session allFailPorts "recursion" 2 defaultProfile).learning_path ≠ "" :=
  c1_fields_nonempty allFailPorts "recursion" 2 defaultProfile
    (fun _ _ h => nomatch h) (fun _ _ h => nomatch h) (fun _ _ h => nomatch h)

/-- C2 (amended): when the final persistence insert fails, the failure is
caught inside `save_learning_session`, which returns false; the
orchestrator ignores that Boolean and returns the full pipeline result -
explanation, questions and learning path from the stages and the stage-4
summary - never the degraded result, and the in-memory result is not
rolled back. -/
theorem c2_save_failure_full_result (ports : Ports) (query : String) (user_id : Nat)
    (profile : UserProfile) (e : String)
    (hSave : ports.dbInsertSession user_id query "General"
        (runPipeline ports query user_id profile).2 = .error e) :
    save_learning_session ports user_id query "General"
        (runPipeline ports query user_id profile).2 = false ∧
    orchestrate_learning_session ports query user_id profile =
      { explanation := (runPipeline ports query user_id profile).1.explanation,
        questions := (runPipeline ports query user_id profile).1.questions,
        learning_path := (runPipeline ports query user_id profile).1.learning_path,
        session_summary := .full (runPipeline ports query user_id profile).2 } ∧
    (∀ msg, (orchestrate_learning_session ports query user_id profile).session_summary ≠
        .degraded msg query) := by
  refine ⟨?_, rfl, ?_⟩
  · simp [save_learning_session, hSave]
  · intro msg h
    exact absurd h (by simp [orchestrate_learning_session])

/-- Ports whose session insert fails while everything else succeeds. -/
def saveFailPorts : Ports :=
  { genExplanation := fun _ => .ok "E",
    genQuestions := fun _ => .ok "QText",
    genPath := fun _ => .ok "P",
    dbProgressQuery := fun _ => .ok [],
    hasVectorStore := false,
    similaritySearch := fun _ _ => .ok [],
    dbInsertSession := fun _ _ _ _ => .error "disk full",
    now := "t" }

/-- C2 counterexample: with the failing session insert the orchestrator
still returns the pipeline questions text and the full stage-4 summary,
not the degraded result of literal error strings and the
`(error, query)` summary that the claim asserts. -/
theorem c2_degraded_counterexample :
    (orchestrate_learning_session saveFailPorts "graphs" 7 defaultProfile).questions = "QText" ∧
    (orchestrate_learning_session saveFailPorts "graphs" 7 defaultProfile).questions ≠
      "Error generating questions. Please try again." ∧
    (orchestrate_learning_session saveFailPorts "graphs" 7 defaultProfile).session_summary =
      .full { query := "graphs", explanation_length := 1, questions_generated := 1,
              has_learning_path := true, timestamp := "t",
              profile_learning_style := some "visual",
              profile_knowledge_level := some "beginner" } := by
  refine ⟨rfl, by decide, rfl⟩

/-- Witness for C2: the failing insert makes `save_learning_session`
report false rather than raising. -/
theorem c2_save_failure_full_result_witness :
    save_learning_session saveFailPorts 7 "graphs" "General"
        (runPipeline saveFailPorts "graphs" 7 defaultProfile).2 = false :=
  (c2_save_failure_full_result saveFailPorts "graphs" 7 defaultProfile "disk full" rfl).1
